import Mathlib

/-!
Verification of the quiz-execution engine of `llm_pop_quiz_bench`
(response parser, prompt renderer, adapter retry policy, run loop,
persistence contract), as a shallow embedding of the Python source.

Python strings are modelled as Lean `String` / `List Char`; machine-level
concerns (asyncio scheduling, wall-clock latency measurement, sqlite) are
modelled by explicit oracles, traces and list-of-row states.  Fallible
Python code is modelled with `Option` / `Except`.
-/

namespace PopQuizBench

/-! ### JSON values, as produced by Python `json.loads`

A Python `json.loads` result is modelled by `Json`.  Numbers keep their
source lexeme (no claim below compares numeric values).  Objects are
Python dicts: inserting an existing key updates the value in place
(original position kept), so the member list never holds duplicate keys. -/

inductive Json where
  | null
  | bool (b : Bool)
  | num (lexeme : String)
  | str (s : String)
  | arr (elems : List Json)
  | obj (members : List (String × Json))
deriving Repr, Inhabited

/-- Python dict insertion: update the first occurrence of the key in place,
otherwise append (`d[k] = v` keeps the original key position). -/
def dictInsert (ms : List (String × Json)) (k : String) (v : Json) :
    List (String × Json) :=
  match ms with
  | [] => [(k, v)]
  | (k', v') :: rest =>
      if k' = k then (k', v) :: rest else (k', v') :: dictInsert rest k v

/-- Python `d.get(k, dflt)`. -/
def dictGet (ms : List (String × Json)) (k : String) (dflt : Json) : Json :=
  match ms with
  | [] => dflt
  | (k', v) :: rest => if k' = k then v else dictGet rest k dflt

/-- Python truthiness (`bool(x)`) of a JSON value.  A numeric lexeme is falsy
when its mantissa digits are all zero (float underflow to `0.0` is not
modelled; no code path under verification feeds a numeric reply onward). -/
def pyTruthy : Json → Bool
  | .null => false
  | .bool b => b
  | .num lex =>
      -- truthy iff some digit of the mantissa (before any exponent) is nonzero;
      -- the constants NaN/Infinity/-Infinity contain no digit and are truthy
      let mantissa := lex.data.takeWhile (fun c => c ≠ 'e' ∧ c ≠ 'E')
      decide (mantissa.any (fun c => '1' ≤ c ∧ c ≤ '9') ∨
        mantissa.all (fun c => ¬ c.isDigit))
  | .str s => s ≠ ""
  | .arr es => !es.isEmpty
  | .obj ms => !ms.isEmpty

/-! ### `json.loads` (CPython `json` module, strict mode, total fuelled parser)

The scanner follows the strict decoder of CPython: JSON whitespace is exactly
space, tab, newline, carriage return; literals `null`/`true`/`false` and the
constants `NaN`/`Infinity`/`-Infinity`; numbers per the strict regex (no
leading zeros, no bare `.`); strings reject raw control characters and
unknown escapes; objects require string keys.  Every fuelled recursive call
is made only after consuming at least one input character, so fuel
`2 * length + 4` can never run out on the inputs `jsonLoads` supplies. -/

def openBrace : Char := Char.ofNat 123

def closeBrace : Char := Char.ofNat 125

def isJsonWs (c : Char) : Bool := c = ' ' || c = '\t' || c = '\n' || c = '\r'

def skipWs : List Char → List Char
  | c :: cs => if isJsonWs c then skipWs cs else c :: cs
  | [] => []

def isDigitCh (c : Char) : Bool := '0' ≤ c && c ≤ '9'

def takeDigits : List Char → List Char × List Char
  | c :: cs =>
      if isDigitCh c then
        let (ds, r) := takeDigits cs
        (c :: ds, r)
      else ([], c :: cs)
  | [] => ([], [])

def hexDigitVal (c : Char) : Option Nat :=
  if '0' ≤ c ∧ c ≤ '9' then some (c.toNat - '0'.toNat)
  else if 'a' ≤ c ∧ c ≤ 'f' then some (c.toNat - 'a'.toNat + 10)
  else if 'A' ≤ c ∧ c ≤ 'F' then some (c.toNat - 'A'.toNat + 10)
  else none

/-- Read four hex digits (a `\uXXXX` escape body). -/
def readHex4 : List Char → Option (Nat × List Char)
  | a :: b :: c :: d :: rest => do
      let va ← hexDigitVal a
      let vb ← hexDigitVal b
      let vc ← hexDigitVal c
      let vd ← hexDigitVal d
      pure (((va * 16 + vb) * 16 + vc) * 16 + vd, rest)
  | _ => none

/-- Strict JSON number: `-?(0|[1-9][0-9]*)(\.[0-9]+)?([eE][+-]?[0-9]+)?`,
returned as its lexeme.  Returns `none` when no number starts here. -/
def scanNumber (cs : List Char) : Option (String × List Char) :=
  let (sign, cs1) :=
    match cs with
    | '-' :: rest => ((['-'] : List Char), rest)
    | _ => ([], cs)
  match cs1 with
  | [] => none
  | c :: rest =>
      if ¬ isDigitCh c then none
      else
        let (intPart, cs2) :=
          if c = '0' then (([c] : List Char), rest)
          else
            let (ds, r) := takeDigits rest
            (c :: ds, r)
        let (fracPart, cs3) :=
          match cs2 with
          | '.' :: d :: r =>
              if isDigitCh d then
                let (ds, r') := takeDigits r
                ('.' :: d :: ds, r')
              else (([] : List Char), cs2)
          | _ => ([], cs2)
        let (expPart, cs4) :=
          match cs3 with
          | e :: r =>
              if e = 'e' ∨ e = 'E' then
                match r with
                | s :: d :: r' =>
                    if (s = '+' ∨ s = '-') ∧ isDigitCh d then
                      let (ds, r'') := takeDigits r'
                      (e :: s :: d :: ds, r'')
                    else if isDigitCh s then
                      let (ds, r'') := takeDigits (d :: r')
                      (e :: s :: ds, r'')
                    else (([] : List Char), cs3)
                | [d] =>
                    if isDigitCh d then (([e, d] : List Char), ([] : List Char))
                    else ([], cs3)
                | [] => ([], cs3)
              else ([], cs3)
          | [] => ([], cs3)
        some (String.mk (sign ++ intPart ++ fracPart ++ expPart), cs4)

/-- String body after the opening quote.  Strict mode: raw control characters
(< 0x20) are rejected; escapes are the eight JSON ones plus `\uXXXX` with
surrogate-pair combination (a lone surrogate is approximated by `Char.ofNat`,
which no claim exercises). -/
def scanStringRest : Nat → List Char → List Char → Option (String × List Char)
  | 0, _, _ => none
  | _ + 1, _, [] => none
  | fuel + 1, acc, c :: rest =>
      if c = '"' then some (String.mk acc.reverse, rest)
      else if c = '\\' then
        match rest with
        | [] => none
        | e :: r2 =>
            if e = '"' then scanStringRest fuel ('"' :: acc) r2
            else if e = '\\' then scanStringRest fuel ('\\' :: acc) r2
            else if e = '/' then scanStringRest fuel ('/' :: acc) r2
            else if e = 'b' then scanStringRest fuel (Char.ofNat 8 :: acc) r2
            else if e = 'f' then scanStringRest fuel (Char.ofNat 12 :: acc) r2
            else if e = 'n' then scanStringRest fuel ('\n' :: acc) r2
            else if e = 'r' then scanStringRest fuel ('\r' :: acc) r2
            else if e = 't' then scanStringRest fuel ('\t' :: acc) r2
            else if e = 'u' then
              match readHex4 r2 with
              | none => none
              | some (n, r3) =>
                  if 0xD800 ≤ n ∧ n < 0xDC00 then
                    match r3 with
                    | '\\' :: 'u' :: r4 =>
                        match readHex4 r4 with
                        | some (m, r5) =>
                            if 0xDC00 ≤ m ∧ m < 0xE000 then
                              let cp := 0x10000 + (n - 0xD800) * 0x400 + (m - 0xDC00)
                              scanStringRest fuel (Char.ofNat cp :: acc) r5
                            else scanStringRest fuel (Char.ofNat m :: Char.ofNat n :: acc) r5
                        | none => none
                    | _ => scanStringRest fuel (Char.ofNat n :: acc) r3
                  else scanStringRest fuel (Char.ofNat n :: acc) r3
            else none
      else if c.toNat < 0x20 then none
      else scanStringRest fuel (c :: acc) rest

/-- Check that `cs` starts with the literal `lit`, returning the remainder. -/
def expectLit (lit : List Char) (cs : List Char) : Option (List Char) :=
  match lit, cs with
  | [], rest => some rest
  | l :: ls, c :: rest => if c = l then expectLit ls rest else none
  | _ :: _, [] => none

mutual

/-- One JSON value, starting at `cs` (leading whitespace already consumed). -/
def scanValue : Nat → List Char → Option (Json × List Char)
  | 0, _ => none
  | _ + 1, [] => none
  | fuel + 1, c :: rest =>
      if c = '"' then
        match scanStringRest fuel [] rest with
        | some (s, r) => some (.str s, r)
        | none => none
      else if c = openBrace then
        let cs1 := skipWs rest
        match cs1 with
        | c1 :: r1 =>
            if c1 = closeBrace then some (.obj [], r1)
            else scanMembers fuel [] cs1
        | [] => none
      else if c = '[' then
        let cs1 := skipWs rest
        match cs1 with
        | ']' :: r1 => some (.arr [], r1)
        | _ => scanElements fuel [] cs1
      else if c = 'n' then (expectLit ['u', 'l', 'l'] rest).map (fun r => (.null, r))
      else if c = 't' then (expectLit ['r', 'u', 'e'] rest).map (fun r => (.bool true, r))
      else if c = 'f' then (expectLit ['a', 'l', 's', 'e'] rest).map (fun r => (.bool false, r))
      else if c = 'N' then (expectLit ['a', 'N'] rest).map (fun r => (.num "NaN", r))
      else if c = 'I' then
        (expectLit ['n', 'f', 'i', 'n', 'i', 't', 'y'] rest).map
          (fun r => (.num "Infinity", r))
      else if c = '-' ∧ rest.head? = some 'I' then
        (expectLit ['I', 'n', 'f', 'i', 'n', 'i', 't', 'y'] rest).map
          (fun r => (.num "-Infinity", r))
      else
        match scanNumber (c :: rest) with
        | some (lex, r) => some (.num lex, r)
        | none => none

/-- Object members, starting at the opening quote of the first key. -/
def scanMembers : Nat → List (String × Json) → List Char →
    Option (Json × List Char)
  | 0, _, _ => none
  | fuel + 1, acc, cs =>
      match cs with
      | '"' :: r1 =>
          match scanStringRest fuel [] r1 with
          | none => none
          | some (key, r2) =>
              match skipWs r2 with
              | ':' :: r3 =>
                  match scanValue fuel (skipWs r3) with
                  | none => none
                  | some (v, r4) =>
                      let acc' := dictInsert acc key v
                      match skipWs r4 with
                      | c :: r5 =>
                          if c = closeBrace then some (.obj acc', r5)
                          else if c = ',' then scanMembers fuel acc' (skipWs r5)
                          else none
                      | [] => none
              | _ => none
      | _ => none

/-- Array elements, starting at the first element. -/
def scanElements : Nat → List Json → List Char → Option (Json × List Char)
  | 0, _, _ => none
  | fuel + 1, acc, cs =>
      match scanValue fuel cs with
      | none => none
      | some (v, r1) =>
          match skipWs r1 with
          | ']' :: r2 => some (.arr (acc ++ [v]), r2)
          | ',' :: r2 => scanElements fuel (acc ++ [v]) (skipWs r2)
          | _ => none

end

/-- Embeds `json.loads` (CPython, default strict settings): skip leading whitespace,
scan one value, require only whitespace to follow.  `none` models
`json.JSONDecodeError`. -/
def jsonLoads (s : String) : Option Json :=
  let cs := skipWs s.data
  match scanValue (2 * cs.length + 4) cs with
  | some (v, rest) => if skipWs rest = [] then some v else none
  | none => none

/-! ### Python string helpers used by `parse_choice_json` -/

/-- Characters stripped by Python `str.strip()` (the ASCII/Latin-1 whitespace
set; rarer Unicode space code points are not modelled). -/
def pyIsSpace (c : Char) : Bool :=
  c = ' ' || c = '\t' || c = '\n' || c = '\r' || c = Char.ofNat 11 ||
    c = Char.ofNat 12 || c = Char.ofNat 28 || c = Char.ofNat 29 ||
    c = Char.ofNat 30 || c = Char.ofNat 31 || c = Char.ofNat 0x85 ||
    c = Char.ofNat 0xA0

/-- Python `text.strip()`. -/
def pyStrip (s : String) : String :=
  String.mk (((s.data.dropWhile pyIsSpace).reverse.dropWhile pyIsSpace).reverse)

/-- Python `text.find(ch)`: index of the first occurrence (`none` for `-1`). -/
def pyFind (s : String) (ch : Char) : Option Nat :=
  s.data.findIdx? (· = ch)

/-- Python `text.rfind(ch)`: index of the last occurrence (`none` for `-1`). -/
def pyRfind (s : String) (ch : Char) : Option Nat :=
  match (s.data.reverse.findIdx? (· = ch)) with
  | some k => some (s.data.length - 1 - k)
  | none => none

/-- Python `text[start : stop]` (non-negative indices; `start ≥ stop` gives
the empty string, as in Python). -/
def pySlice (s : String) (start stop : Nat) : String :=
  String.mk ((s.data.drop start).take (stop - start))

/-! ### `core/utils.py` -/

/-- Embeds `parse_choice_json` (`core/utils.py`): strict parse of the stripped text;
on `JSONDecodeError`, extract the substring from the first opening brace to
the last closing brace and parse that; `none` models Python `None`. -/
def parse_choice_json (text : String) : Option Json :=
  match jsonLoads (pyStrip text) with
  | some v => some v
  | none =>
      match pyFind text openBrace, pyRfind text closeBrace with
      | some start, some stop => jsonLoads (pySlice text start (stop + 1))
      | some _, none => none
      | none, _ => none

/-! ### `core/prompt.py` -/

/-- Embeds `PromptContext` (`core/prompt.py`).  The field `quiz_title` is carried but the
template does not interpolate it. -/
structure PromptContext where
  quiz_title : String
  q_num : Nat
  q_total : Nat
  question_text : String
  options : List String

/-- Python `string.ascii_uppercase`. -/
def ascii_uppercase : List Char :=
  "ABCDEFGHIJKLMNOPQRSTUVWXYZ".data

/-- The option-rendering loop of `render_prompt`: builds `options_lines` and
`valid_choices` in one pass; `ascii_uppercase[i]` out of range models the
Python `IndexError` as `none`. -/
def buildOptions : List String → Nat → Option (List String × List Char)
  | [], _ => some ([], [])
  | optionText :: rest, i =>
      match ascii_uppercase.get? i with
      | none => none
      | some letter =>
          match buildOptions rest (i + 1) with
          | none => none
          | some (lines, letters) =>
              some ((String.singleton letter ++ ") " ++ optionText) :: lines,
                letter :: letters)

/-- Embeds `TEMPLATE.format(...)` (`core/prompt.py`), with the placeholders already
substituted. -/
def promptTemplate (qNum qTotal : Nat) (questionText optionsText validChoices : String) :
    String :=
  "SYSTEM:\n" ++
  "You are an AI language model, so you lack human experiences. That\x27s OK.\n" ++
  "For each question I send, choose **exactly one** of the provided options that best matches the linguistic patterns you typically produce.\n" ++
  "USER:\n" ++
  "Question " ++ toString qNum ++ "/" ++ toString qTotal ++ ": " ++ questionText ++ "\n\n" ++
  "Choose ONE option by letter and provide your reasoning.\n\n" ++
  "Options:\n" ++
  optionsText ++ "\n" ++
  "Respond in STRICT JSON format with your choice and detailed reasoning:\n" ++
  "\x7b\"choice\":\"<" ++ validChoices ++
    ">\",\"reason\":\"<explain your reasoning in 1-2 sentences>\",\"additional_thoughts\":\"<any extra thoughts or personality insights (optional)>\"\x7d"

/-- Embeds `render_prompt` (`core/prompt.py`): letters are assigned by position,
`options_text` joins the lines with newlines, `valid_choices_str` joins the
letters with pipes. -/
def render_prompt (ctx : PromptContext) : Option String :=
  match buildOptions ctx.options 0 with
  | none => none
  | some (lines, letters) =>
      some (promptTemplate ctx.q_num ctx.q_total ctx.question_text
        (String.intercalate "\n" lines)
        (String.intercalate "|" (letters.map String.singleton)))

/-! ### Adapter retry policy (`adapters/*.py`)

Each provider adapter wraps one network attempt (HTTP post,
`raise_for_status`, provider-specific error wrapping) in
`AsyncRetrying(stop=stop_after_attempt(3), wait=wait_exponential(...))`.
The attempt body is modelled as an oracle `attempt : Nat → Except ε ρ`
(attempt number, starting at 1, to outcome); tenacity reraises the last
exception of the last attempt inside a `RetryError` once the stop condition holds,
which the engine unwraps back to that exception, so the error value of the
exhausted run is the error of the last attempt. -/

structure WaitExponential where
  multiplier : Nat
  minDelay : Nat
  maxDelay : Nat

structure RetryPolicy where
  stop_after_attempt : Nat
  wait : WaitExponential

/-- Embeds `tenacity.wait_exponential`: `multiplier * 2^(n-1)` clamped to
`[minDelay, maxDelay]` before attempt `n+1`. -/
def WaitExponential.delay (w : WaitExponential) (n : Nat) : Nat :=
  max w.minDelay (min w.maxDelay (w.multiplier * 2 ^ (n - 1)))

/-- The `async for attempt in AsyncRetrying(...)` loop: run attempts
`k, k+1, …` until one succeeds or the budget is spent; also counts the
attempts actually executed. -/
def retryLoop (attempt : Nat → Except ε ρ) : Nat → Nat → Except ε ρ × Nat
  | k, 0 => (attempt k, 1)  -- unreachable for the policies below (budget is 3)
  | k, 1 => (attempt k, 1)
  | k, budget + 2 =>
      match attempt k with
      | .ok r => (.ok r, 1)
      | .error _ =>
          let (res, n) := retryLoop attempt (k + 1) (budget + 1)
          (res, n + 1)

/-- Embeds `AsyncRetrying(stop=stop_after_attempt(p.stop_after_attempt), ...)`
driving the attempt body. -/
def asyncRetrying (p : RetryPolicy) (attempt : Nat → Except ε ρ) : Except ε ρ × Nat :=
  retryLoop attempt 1 p.stop_after_attempt

/-- Policy of `OpenAIAdapter.send`: `stop_after_attempt(3), wait_exponential(min=1, max=4)`. -/
def openai_retry_policy : RetryPolicy := ⟨3, ⟨1, 1, 4⟩⟩

/-- Policy of `GoogleAdapter.send`: `stop_after_attempt(3), wait_exponential(multiplier=1, min=1, max=10)`. -/
def google_retry_policy : RetryPolicy := ⟨3, ⟨1, 1, 10⟩⟩

/-- Policy of `AnthropicAdapter.send`: `stop_after_attempt(3), wait_exponential(min=1, max=4)`. -/
def anthropic_retry_policy : RetryPolicy := ⟨3, ⟨1, 1, 4⟩⟩

/-- Policy of `GrokAdapter.send`: `stop_after_attempt(3), wait_exponential(multiplier=1, min=1, max=10)`. -/
def grok_retry_policy : RetryPolicy := ⟨3, ⟨1, 1, 10⟩⟩

/-- Policy of `OpenRouterAdapter.send`: `stop_after_attempt(3), wait_exponential(min=1, max=4)`. -/
def openrouter_retry_policy : RetryPolicy := ⟨3, ⟨1, 1, 4⟩⟩

/-- The retry skeleton of `OpenAIAdapter.send`, with one network attempt
abstracted as the oracle. -/
def openai_send_retrying (attempt : Nat → Except ε ρ) : Except ε ρ × Nat :=
  asyncRetrying openai_retry_policy attempt

/-- The retry skeleton of `GoogleAdapter.send`. -/
def google_send_retrying (attempt : Nat → Except ε ρ) : Except ε ρ × Nat :=
  asyncRetrying google_retry_policy attempt

/-- The retry skeleton of `AnthropicAdapter.send`. -/
def anthropic_send_retrying (attempt : Nat → Except ε ρ) : Except ε ρ × Nat :=
  asyncRetrying anthropic_retry_policy attempt

/-- The retry skeleton of `GrokAdapter.send`. -/
def grok_send_retrying (attempt : Nat → Except ε ρ) : Except ε ρ × Nat :=
  asyncRetrying grok_retry_policy attempt

/-- The retry skeleton of `OpenRouterAdapter.send`. -/
def openrouter_send_retrying (attempt : Nat → Except ε ρ) : Except ε ρ × Nat :=
  asyncRetrying openrouter_retry_policy attempt

/-! ### Environment, adapter construction, availability
(`adapters/*.py __init__`, `core/model_config.py`) -/

/-- The process environment: an association list (first binding wins). -/
abbrev Env := List (String × String)

/-- Python `os.environ.get(key)`. -/
def envLookup (env : Env) (key : String) : Option String :=
  match env with
  | [] => none
  | (k, v) :: rest => if k = key then some v else envLookup rest key

/-- Python `os.environ.get(key, dflt)`. -/
def os_environ_get (env : Env) (key dflt : String) : String :=
  (envLookup env key).getD dflt

/-- The state built by the `__init__` of each provider adapter (model name and
resolved API key; the HTTP client handle is not modelled). -/
structure ProviderAdapterState where
  model : String
  api_key : String
deriving Repr, DecidableEq

/-- Embeds `OpenAIAdapter.__init__`: `self.api_key = os.environ.get(api_key_env, "")`.
Construction is total: an unset variable yields an empty key, not an error. -/
def openai_adapter_init (env : Env) (model api_key_env : String) : ProviderAdapterState :=
  ⟨model, os_environ_get env api_key_env ""⟩

/-- Embeds `AnthropicAdapter.__init__` (same credential resolution). -/
def anthropic_adapter_init (env : Env) (model api_key_env : String) : ProviderAdapterState :=
  ⟨model, os_environ_get env api_key_env ""⟩

/-- Embeds `GoogleAdapter.__init__` (same credential resolution). -/
def google_adapter_init (env : Env) (model api_key_env : String) : ProviderAdapterState :=
  ⟨model, os_environ_get env api_key_env ""⟩

/-- Embeds `GrokAdapter.__init__` (same credential resolution). -/
def grok_adapter_init (env : Env) (model api_key_env : String) : ProviderAdapterState :=
  ⟨model, os_environ_get env api_key_env ""⟩

/-- Embeds `ModelConfig` (`core/model_config.py`), restricted to the fields the
claims exercise. -/
structure ModelConfig where
  id : String
  provider : String
  model : String
  api_key_env : String
deriving Repr, DecidableEq

/-- Embeds `ModelConfig.is_available`: `bool(os.environ.get(self.api_key_env))` —
true iff the variable is set to a non-empty string (or mocks are on). -/
def is_available (env : Env) (cfg : ModelConfig) (use_mocks : Bool) : Bool :=
  if use_mocks then true
  else
    match envLookup env cfg.api_key_env with
    | none => false
    | some v => v ≠ ""

/-- A constructed adapter, tagged by provider (`ModelConfig.create_adapter`
overrides `adapter.id` with the id of the config afterwards). -/
inductive ConstructedAdapter where
  | mock (id : String)
  | openai (id : String) (st : ProviderAdapterState)
  | anthropic (id : String) (st : ProviderAdapterState)
  | google (id : String) (st : ProviderAdapterState)
  | grok (id : String) (st : ProviderAdapterState)
deriving Repr, DecidableEq

/-- Embeds `ModelConfig.create_adapter`: provider dispatch; an unknown provider
raises `ValueError` (the only construction-time failure). -/
def create_adapter (env : Env) (cfg : ModelConfig) (use_mocks : Bool) :
    Except String ConstructedAdapter :=
  if use_mocks then .ok (.mock cfg.id)
  else if cfg.provider = "openai" then
    .ok (.openai cfg.id (openai_adapter_init env cfg.model cfg.api_key_env))
  else if cfg.provider = "anthropic" then
    .ok (.anthropic cfg.id (anthropic_adapter_init env cfg.model cfg.api_key_env))
  else if cfg.provider = "google" then
    .ok (.google cfg.id (google_adapter_init env cfg.model cfg.api_key_env))
  else if cfg.provider = "grok" then
    .ok (.grok cfg.id (grok_adapter_init env cfg.model cfg.api_key_env))
  else .error ("Unknown provider: " ++ cfg.provider)

/-- Embeds `ModelConfigLoader.get_model`: lookup by id. -/
def get_model (configs : List ModelConfig) (model_id : String) : Option ModelConfig :=
  configs.find? (fun cfg => cfg.id = model_id)

/-- Embeds `ModelConfigLoader.create_adapters`: for each requested id, construct an
adapter only when the config exists and `is_available` holds; a
`create_adapter` exception propagates. -/
def create_adapters (env : Env) (configs : List ModelConfig) (model_ids : List String)
    (use_mocks : Bool) : Except String (List ConstructedAdapter) :=
  match model_ids with
  | [] => .ok []
  | mid :: rest =>
      match get_model configs mid with
      | some cfg =>
          if is_available env cfg use_mocks then
            match create_adapter env cfg use_mocks with
            | .error e => .error e
            | .ok a =>
                match create_adapters env configs rest use_mocks with
                | .error e => .error e
                | .ok more => .ok (a :: more)
          else create_adapters env configs rest use_mocks
      | none => create_adapters env configs rest use_mocks

/-! ### Google message conversion (`adapters/google_adapter.py`, send lines 24-41) -/

/-- One entry of the uniform message list: a dict with `role` and `content`. -/
structure ChatMessage where
  role : String
  content : String
deriving Repr, DecidableEq

/-- One entry of the Google `contents` array (a dict with `parts` and `role`).
Every entry the loop builds has exactly one part. -/
structure GoogleContent where
  parts : List String
  role : String
deriving Repr, DecidableEq

/-- One iteration of the conversion loop: `user` appends a user entry;
`system` prepends its content (blank-line separated) to the text of a
trailing user entry, else starts a new user entry; any other role
(`assistant` included) matches no branch and is dropped. -/
def googleFoldStep (contents : List GoogleContent) (msg : ChatMessage) :
    List GoogleContent :=
  if msg.role = "user" then
    contents ++ [⟨[msg.content], "user"⟩]
  else if msg.role = "system" then
    match contents.getLast? with
    | some last =>
        if last.role = "user" then
          contents.dropLast ++
            [⟨match last.parts with
              | p :: ps => (msg.content ++ "\n\n" ++ p) :: ps
              | [] => []  -- unreachable: every built entry has one part
              , last.role⟩]
        else contents ++ [⟨[msg.content], "user"⟩]
    | none => contents ++ [⟨[msg.content], "user"⟩]
  else contents

/-- The message-conversion loop of `GoogleAdapter.send`. -/
def googleContents (messages : List ChatMessage) : List GoogleContent :=
  messages.foldl googleFoldStep []

/-! ### `core/runner.py` — the quiz execution engine

`adapter.send` is the only suspension and failure point of the question
loop, so a run is driven by the send behaviour of each adapter, modelled as an
oracle from the 1-based question index (`enumerate(questions, start=1)`)
to either a `ChatResp` or the raised exception.  Everything else in the
inner `try` block (prompt rendering, parsing, record construction) is
pure and embedded directly.  The outer per-adapter `except` only guards
code outside the inner `try` (a `print` and the loop header), which
cannot fail in this model, so it has no branch here. -/

/-- What the engine reads from a `ChatResponse`. -/
structure ChatResp where
  text : String
  tokens_in : Option Nat
  tokens_out : Option Nat
  latency_ms : Nat
deriving Repr, DecidableEq

/-- A raised Python exception as the engine sees it: either a tenacity
`RetryError` (whose `last_attempt` holds the root-cause exception message)
or a plain exception with no cause chain. -/
inductive PyExn where
  | retryError (rootCause : String)
  | plain (msg : String)
deriving Repr, DecidableEq

/-- Embeds `_extract_actual_error` (`core/runner.py`): unwrap a `RetryError` to its
exception string of the last attempt, else fall back to `str(exception)`. -/
def extract_actual_error : PyExn → String
  | .retryError rootCause => rootCause
  | .plain msg => msg

/-- Embeds `QAResult` (`core/types.py`) as the runner builds it.  The JSON-derived
fields keep their dynamic (JSON) type: Python dataclasses do not enforce
the annotations, and `data.get` may return any JSON value. -/
structure QARecord where
  question_id : String
  choice : Json
  reason : Json
  additional_thoughts : Json
  refused : Json
  latency_ms : Nat
  tokens_in : Option Nat
  tokens_out : Option Nat
deriving Repr

/-- The fallback dict of `run_quiz` line 93: empty `choice`, `reason` and
`additional_thoughts`, with `refused` set to `True`. -/
def refusalData : Json :=
  .obj [("choice", .str ""), ("reason", .str ""), ("additional_thoughts", .str ""),
    ("refused", .bool true)]

/-- The record of the per-question `except` branch (`run_quiz` lines 111-120):
empty choice, reason `"Error: "` plus the first 150 characters of the
root-cause error, refused, zero latency and token counts. -/
def errorRecord (questionId : String) (e : PyExn) : QARecord :=
  { question_id := questionId
    choice := .str ""
    reason := .str ("Error: " ++ (extract_actual_error e).take 150)
    additional_thoughts := .str ""
    refused := .bool true
    latency_ms := 0
    tokens_in := some 0
    tokens_out := some 0 }

/-- Python type name of a JSON value (for the `AttributeError` a non-dict
`data` raises at `data.get`). -/
def pyTypeName : Json → String
  | .null => "NoneType"
  | .bool _ => "bool"
  | .num lex =>
      if lex.data.any (fun c => c = '.' ∨ c = 'e' ∨ c = 'E' ∨ c = 'N' ∨ c = 'I') then
        "float"
      else "int"
  | .str _ => "str"
  | .arr _ => "list"
  | .obj _ => "dict"

/-- Embeds `if not data` (`run_quiz` lines 92-93): a parse failure
(Python `None`) or a falsy parse result is replaced by the refusal dict. -/
def dataOfParsed : Option Json → Json
  | none => refusalData
  | some v => if pyTruthy v then v else refusalData

/-- Building the `QAResult` from `data` with `data.get` (`run_quiz` lines
94-103).  A non-dict `data` raises `AttributeError` at `data.get`, which the
per-question `except` turns into an error record. -/
def recordFromData (questionId : String) (resp : ChatResp) : Json → QARecord
  | .obj members =>
      { question_id := questionId
        choice := dictGet members "choice" (.str "")
        reason := dictGet members "reason" (.str "")
        additional_thoughts := dictGet members "additional_thoughts" (.str "")
        refused := dictGet members "refused" (.bool false)
        latency_ms := resp.latency_ms
        tokens_in := resp.tokens_in
        tokens_out := resp.tokens_out }
  | other =>
      errorRecord questionId
        (.plain ("\x27" ++ pyTypeName other ++ "\x27 object has no attribute \x27get\x27"))

/-- The `try` body after a successful `send` (`run_quiz` lines 91-104). -/
def recordOfResponse (questionId : String) (resp : ChatResp) : QARecord :=
  recordFromData questionId resp (dataOfParsed (parse_choice_json resp.text))

/-- A quiz question as the engine reads it (`quiz["questions"][i]`). -/
structure Question where
  id : String
  text : String
  options : List String
deriving Repr, DecidableEq

/-- One (model, question) attempt: the inner `try` of `run_quiz`. -/
def processQuestion (send : Nat → Except PyExn ChatResp) (idx : Nat) (q : Question) :
    QARecord :=
  match send idx with
  | .ok resp => recordOfResponse q.id resp
  | .error e => errorRecord q.id e

/-- The question loop of `run_quiz` for one adapter
(`for idx, q in enumerate(questions, start=1)`), building `model_records`. -/
def modelRecords (send : Nat → Except PyExn ChatResp) : Nat → List Question →
    List QARecord
  | _, [] => []
  | idx, q :: rest => processQuestion send idx q :: modelRecords send (idx + 1) rest

/-- An adapter as the engine drives it: its id and its send behaviour
(per 1-based question index; retries happen inside `send`). -/
structure AdapterModel where
  id : String
  send : Nat → Except PyExn ChatResp

/-! ### `core/sqlite_store.py` — `insert_results` and the rows of a run -/

/-- One row of the `results` table.  `refused` is stored as
`1 if row.get("refused") else 0` (Python truthiness). -/
structure ResultRow where
  run_id : String
  quiz_id : String
  model_id : String
  question_id : String
  choice : Json
  reason : Json
  additional_thoughts : Json
  refused : Nat
  latency_ms : Nat
  tokens_in : Option Nat
  tokens_out : Option Nat
deriving Repr

/-- The tuple `insert_results` builds from one record dict. -/
def toRow (run_id quiz_id model_id : String) (rec : QARecord) : ResultRow :=
  { run_id := run_id
    quiz_id := quiz_id
    model_id := model_id
    question_id := rec.question_id
    choice := rec.choice
    reason := rec.reason
    additional_thoughts := rec.additional_thoughts
    refused := if pyTruthy rec.refused then 1 else 0
    latency_ms := rec.latency_ms
    tokens_in := rec.tokens_in
    tokens_out := rec.tokens_out }

/-- Embeds `insert_results` (`core/sqlite_store.py` lines 173-206): one
`executemany` + `commit` appending the whole batch to the table in a single
transaction (skipped entirely when the batch is empty). -/
def insert_results (db : List ResultRow) (run_id quiz_id model_id : String)
    (rows : List QARecord) : List ResultRow :=
  if rows.isEmpty then db
  else db ++ rows.map (toRow run_id quiz_id model_id)

/-- The rows the completed loop of one adapter contributes. -/
def adapterRows (run_id quiz_id : String) (questions : List Question)
    (a : AdapterModel) : List ResultRow :=
  (modelRecords a.send 1 questions).map (toRow run_id quiz_id a.id)

/-- The adapter loop of `run_quiz` (lines 68-133) acting on the results
table: for each adapter, run its question loop, then one `insert_results`
call with the full batch of that adapter. -/
def run_quiz (db : List ResultRow) (run_id quiz_id : String)
    (questions : List Question) : List AdapterModel → List ResultRow
  | [] => db
  | a :: rest =>
      run_quiz (insert_results db run_id quiz_id a.id (modelRecords a.send 1 questions))
        run_id quiz_id questions rest

/-- Observable events of a run, for the persistence-granularity contract:
each question attempt as it resolves, and each `insert_results` call. -/
inductive RunEvent where
  | attempt (model_id : String) (question_id : String)
  | insertBatch (model_id : String) (rows : List ResultRow)

/-- The model id an event belongs to. -/
def RunEvent.modelId : RunEvent → String
  | .attempt m _ => m
  | .insertBatch m _ => m

/-- Whether an event is an `insert_results` call. -/
def RunEvent.isInsert : RunEvent → Bool
  | .attempt _ _ => false
  | .insertBatch _ _ => true

/-- The events of the pass of one adapter: its question attempts in quiz order,
then its single `insert_results` call. -/
def adapterEvents (run_id quiz_id : String) (questions : List Question)
    (a : AdapterModel) : List RunEvent :=
  questions.map (fun q => RunEvent.attempt a.id q.id) ++
    [RunEvent.insertBatch a.id (adapterRows run_id quiz_id questions a)]

/-- The event trace of `run_quiz`: adapters processed in order, with the
question loop of each adapter completing before its batch insert. -/
def runTrace (run_id quiz_id : String) (questions : List Question)
    (adapters : List AdapterModel) : List RunEvent :=
  adapters.foldr (fun a acc => adapterEvents run_id quiz_id questions a ++ acc) []

/-- The rows a whole run appends to a fresh `results` table (adapter batches
in adapter order). -/
def runRows (run_id quiz_id : String) (questions : List Question) :
    List AdapterModel → List ResultRow
  | [] => []
  | a :: rest =>
      adapterRows run_id quiz_id questions a ++ runRows run_id quiz_id questions rest

/-! ### Helper lemmas -/

theorem insert_results_eq_append (db : List ResultRow) (rid qid mid : String)
    (rows : List QARecord) :
    insert_results db rid qid mid rows = db ++ rows.map (toRow rid qid mid) := by
  cases rows <;> simp [insert_results]

theorem run_quiz_eq_append (rid qid : String) (qs : List Question) :
    ∀ (adapters : List AdapterModel) (db : List ResultRow),
      run_quiz db rid qid qs adapters = db ++ runRows rid qid qs adapters
  | [], db => by simp [run_quiz, runRows]
  | a :: rest, db => by
      rw [run_quiz, run_quiz_eq_append rid qid qs rest, insert_results_eq_append]
      simp [runRows, adapterRows]

theorem recordFromData_question_id (qid : String) (resp : ChatResp) :
    ∀ d : Json, (recordFromData qid resp d).question_id = qid
  | .null => rfl
  | .bool _ => rfl
  | .num _ => rfl
  | .str _ => rfl
  | .arr _ => rfl
  | .obj _ => rfl

theorem processQuestion_question_id (send : Nat → Except PyExn ChatResp) (idx : Nat)
    (q : Question) : (processQuestion send idx q).question_id = q.id := by
  unfold processQuestion
  cases send idx with
  | ok resp => exact recordFromData_question_id q.id resp _
  | error e => rfl

theorem modelRecords_length (send : Nat → Except PyExn ChatResp) :
    ∀ (idx : Nat) (qs : List Question), (modelRecords send idx qs).length = qs.length
  | _, [] => rfl
  | idx, _ :: rest => by
      simp [modelRecords, modelRecords_length send (idx + 1) rest]

theorem modelRecords_question_ids (send : Nat → Except PyExn ChatResp) :
    ∀ (idx : Nat) (qs : List Question),
      (modelRecords send idx qs).map (·.question_id) = qs.map (·.id)
  | _, [] => rfl
  | idx, q :: rest => by
      simp [modelRecords, processQuestion_question_id,
        modelRecords_question_ids send (idx + 1) rest]

theorem adapterRows_model_id (rid qid : String) (qs : List Question)
    (a : AdapterModel) : ∀ r ∈ adapterRows rid qid qs a,
      r.model_id = a.id ∧ r.run_id = rid ∧ r.quiz_id = qid := by
  intro r hr
  simp only [adapterRows, List.mem_map] at hr
  obtain ⟨rec, _, rfl⟩ := hr
  exact ⟨rfl, rfl, rfl⟩

theorem adapterRows_length (rid qid : String) (qs : List Question) (a : AdapterModel) :
    (adapterRows rid qid qs a).length = qs.length := by
  simp [adapterRows, modelRecords_length]

/-! ### Claim theorems -/

/-- Claim C4: `parse_choice_json` is total (it never raises): it returns the
strict JSON parse of the stripped text when that succeeds; otherwise, when
the text has a first opening brace at `i` and a last closing brace at `j`,
it returns the JSON parse of the substring from `i` through `j` (possibly
`none`); in every other case — in particular when the text has no opening or
no closing brace — it returns the explicit no-result value `none`. -/
theorem parse_choice_json_total_fallback (text : String) :
    (∀ v, jsonLoads (pyStrip text) = some v → parse_choice_json text = some v) ∧
    (jsonLoads (pyStrip text) = none →
      (∀ i j, pyFind text openBrace = some i → pyRfind text closeBrace = some j →
        parse_choice_json text = jsonLoads (pySlice text i (j + 1))) ∧
      ((pyFind text openBrace = none ∨ pyRfind text closeBrace = none) →
        parse_choice_json text = none)) := by
  unfold parse_choice_json
  cases hs : jsonLoads (pyStrip text) with
  | some v => exact ⟨fun w hw => by simp_all, fun h => by simp_all⟩
  | none =>
      refine ⟨fun w hw => by simp_all, fun _ => ⟨?_, ?_⟩⟩
      · intro i j hi hj
        rw [hi, hj]
      · intro h
        rcases h with h | h
        · rw [h]
        · rw [h]
          cases pyFind text openBrace <;> rfl

/-- Claim C4 witness: a reply with no brace pair parses to the explicit
no-result value, via the theorem. -/
theorem parse_choice_json_total_fallback_witness :
    parse_choice_json "No JSON here" = none :=
  ((parse_choice_json_total_fallback "No JSON here").2 rfl).2 (Or.inl rfl)

/-- The option loop of `render_prompt` in closed form: when at most 26
options remain from start index `i`, the `j`-th remaining option is rendered
with uppercase letter `i + j` and the letters are collected in order. -/
theorem buildOptions_eq (opts : List String) : ∀ i : Nat, i + opts.length ≤ 26 →
    buildOptions opts i =
      some (opts.mapIdx (fun j t =>
          String.singleton (ascii_uppercase.getD (i + j) 'A') ++ ") " ++ t),
        (List.range opts.length).map (fun j => ascii_uppercase.getD (i + j) 'A')) := by
  induction opts with
  | nil => intro i _; rfl
  | cons t rest ih =>
      intro i hle
      have hi : i < 26 := by simp at hle; omega
      have hget : ascii_uppercase.get? i = some (ascii_uppercase.getD i 'A') := by
        have : i < ascii_uppercase.length := hi
        simp [List.get?_eq_getElem?, List.getElem?_eq_getElem this, List.getD]
      have hrest := ih (i + 1) (by simp at hle ⊢; omega)
      simp only [buildOptions, hget, hrest]
      simp only [Option.some.injEq, Prod.mk.injEq]
      constructor
      · rw [List.mapIdx_cons]
        congr 1
        congr 1
        funext j s
        have hj : i + 1 + j = i + (j + 1) := by omega
        rw [hj]
      · rw [List.length_cons, List.range_succ_eq_map, List.map_cons, List.map_map]
        congr 1
        congr 1
        funext j
        have hj : i + 1 + j = i + (j + 1) := by omega
        simp [Function.comp, hj]

/-- Claim C5: `render_prompt` renders the `i`-th option (0-based) with the
`i`-th uppercase letter as `"X) text"`, and the valid-letter set of the
choice instruction is exactly the first `k` letters, pipe-joined, for `k`
options — never a letter beyond the option count.  (More than 26 options
would raise `IndexError` in the source; the claim concerns quizzes within
the alphabet.) -/
theorem render_prompt_letters (ctx : PromptContext) (h : ctx.options.length ≤ 26) :
    render_prompt ctx =
      some (promptTemplate ctx.q_num ctx.q_total ctx.question_text
        (String.intercalate "\n"
          (ctx.options.mapIdx (fun i t =>
            String.singleton (ascii_uppercase.getD i 'A') ++ ") " ++ t)))
        (String.intercalate "|"
          (((List.range ctx.options.length).map
            (fun i => ascii_uppercase.getD i 'A')).map String.singleton))) := by
  have hb := buildOptions_eq ctx.options 0 (by omega)
  unfold render_prompt
  rw [hb]
  simp

/-- Claim C5 witness: for options Coffee, Tea, Water the prompt offers
exactly `A) Coffee`, `B) Tea`, `C) Water` and requests a choice in `A|B|C`. -/
theorem render_prompt_letters_witness :
    render_prompt ⟨"Quiz", 1, 1, "Pick a drink:", ["Coffee", "Tea", "Water"]⟩ =
      some (promptTemplate 1 1 "Pick a drink:" "A) Coffee\nB) Tea\nC) Water" "A|B|C") := by
  have h := render_prompt_letters ⟨"Quiz", 1, 1, "Pick a drink:", ["Coffee", "Tea", "Water"]⟩
    (by decide)
  rw [h]
  rfl

/-- The three-attempt retry loop in closed form: try attempts 1, 2, 3 in
order, stop at the first success, and surface the error of the third attempt when
all fail. -/
theorem retryLoop_three (att : Nat → Except ε ρ) :
    retryLoop att 1 3 =
      match att 1 with
      | .ok r => (.ok r, 1)
      | .error _ =>
          match att 2 with
          | .ok r => (.ok r, 2)
          | .error _ =>
              match att 3 with
              | .ok r => (.ok r, 3)
              | .error e => (.error e, 3) := by
  cases h1 : att 1 <;> cases h2 : att 2 <;> cases h3 : att 3 <;>
    simp [retryLoop, h1, h2, h3]

/-- Claim C6: the `send` of every provider adapter makes at most 3 network
attempts per call; a failing call only gives up after the 3-attempt budget
is spent; and the outcome depends only on attempts 1-3, so a fourth attempt
never occurs.  Stated for all five provider adapters. -/
theorem adapter_send_three_attempts {ε ρ : Type} (att att' : Nat → Except ε ρ)
    (hagree : ∀ k, 1 ≤ k → k ≤ 3 → att' k = att k) :
    ((openai_send_retrying att).2 ≤ 3 ∧
      (∀ e, (openai_send_retrying att).1 = .error e → (openai_send_retrying att).2 = 3) ∧
      openai_send_retrying att' = openai_send_retrying att) ∧
    ((google_send_retrying att).2 ≤ 3 ∧
      (∀ e, (google_send_retrying att).1 = .error e → (google_send_retrying att).2 = 3) ∧
      google_send_retrying att' = google_send_retrying att) ∧
    ((anthropic_send_retrying att).2 ≤ 3 ∧
      (∀ e, (anthropic_send_retrying att).1 = .error e → (anthropic_send_retrying att).2 = 3) ∧
      anthropic_send_retrying att' = anthropic_send_retrying att) ∧
    ((grok_send_retrying att).2 ≤ 3 ∧
      (∀ e, (grok_send_retrying att).1 = .error e → (grok_send_retrying att).2 = 3) ∧
      grok_send_retrying att' = grok_send_retrying att) ∧
    ((openrouter_send_retrying att).2 ≤ 3 ∧
      (∀ e, (openrouter_send_retrying att).1 = .error e → (openrouter_send_retrying att).2 = 3) ∧
      openrouter_send_retrying att' = openrouter_send_retrying att) := by
  have e1 := hagree 1 (by omega) (by omega)
  have e2 := hagree 2 (by omega) (by omega)
  have e3 := hagree 3 (by omega) (by omega)
  have key : (retryLoop att 1 3).2 ≤ 3 ∧
      (∀ e, (retryLoop att 1 3).1 = .error e → (retryLoop att 1 3).2 = 3) ∧
      retryLoop att' 1 3 = retryLoop att 1 3 := by
    rw [retryLoop_three att, retryLoop_three att', e1, e2, e3]
    cases att 1 <;> cases att 2 <;> cases att 3 <;> simp
  exact ⟨key, key, key, key, key⟩

/-- Claim C6 witness: an attempt body that always fails with a transport
error is tried exactly 3 times by the retry loop of each adapter, never a fourth. -/
theorem adapter_send_three_attempts_witness :
    ((openai_send_retrying (fun _ => (Except.error "connect timeout" : Except String Unit))).2 ≤ 3 ∧
      (∀ e, (openai_send_retrying (fun _ => (Except.error "connect timeout" : Except String Unit))).1 = .error e →
        (openai_send_retrying (fun _ => (Except.error "connect timeout" : Except String Unit))).2 = 3) ∧
      openai_send_retrying (fun _ => (Except.error "connect timeout" : Except String Unit)) =
        openai_send_retrying (fun _ => (Except.error "connect timeout" : Except String Unit))) ∧
    ((google_send_retrying (fun _ => (Except.error "connect timeout" : Except String Unit))).2 ≤ 3 ∧
      (∀ e, (google_send_retrying (fun _ => (Except.error "connect timeout" : Except String Unit))).1 = .error e →
        (google_send_retrying (fun _ => (Except.error "connect timeout" : Except String Unit))).2 = 3) ∧
      google_send_retrying (fun _ => (Except.error "connect timeout" : Except String Unit)) =
        google_send_retrying (fun _ => (Except.error "connect timeout" : Except String Unit))) ∧
    ((anthropic_send_retrying (fun _ => (Except.error "connect timeout" : Except String Unit))).2 ≤ 3 ∧
      (∀ e, (anthropic_send_retrying (fun _ => (Except.error "connect timeout" : Except String Unit))).1 = .error e →
        (anthropic_send_retrying (fun _ => (Except.error "connect timeout" : Except String Unit))).2 = 3) ∧
      anthropic_send_retrying (fun _ => (Except.error "connect timeout" : Except String Unit)) =
        anthropic_send_retrying (fun _ => (Except.error "connect timeout" : Except String Unit))) ∧
    ((grok_send_retrying (fun _ => (Except.error "connect timeout" : Except String Unit))).2 ≤ 3 ∧
      (∀ e, (grok_send_retrying (fun _ => (Except.error "connect timeout" : Except String Unit))).1 = .error e →
        (grok_send_retrying (fun _ => (Except.error "connect timeout" : Except String Unit))).2 = 3) ∧
      grok_send_retrying (fun _ => (Except.error "connect timeout" : Except String Unit)) =
        grok_send_retrying (fun _ => (Except.error "connect timeout" : Except String Unit))) ∧
    ((openrouter_send_retrying (fun _ => (Except.error "connect timeout" : Except String Unit))).2 ≤ 3 ∧
      (∀ e, (openrouter_send_retrying (fun _ => (Except.error "connect timeout" : Except String Unit))).1 = .error e →
        (openrouter_send_retrying (fun _ => (Except.error "connect timeout" : Except String Unit))).2 = 3) ∧
      openrouter_send_retrying (fun _ => (Except.error "connect timeout" : Except String Unit)) =
        openrouter_send_retrying (fun _ => (Except.error "connect timeout" : Except String Unit))) :=
  adapter_send_three_attempts
    (fun _ => (Except.error "connect timeout" : Except String Unit))
    (fun _ => (Except.error "connect timeout" : Except String Unit))
    (fun _ _ _ => rfl)

/-- Claim C7 counterexample: for an unparseable reply the engine records
`refused = true` and `choice = ""` as claimed, but the recorded reason is
the empty string, not `"unparseable"` (`run_quiz` line 93 sets
`"reason": ""` in the fallback dict). -/
theorem unparseable_reason_counterexample :
    (recordOfResponse "q1" ⟨"No JSON here", some 10, some 5, 123⟩).refused = Json.bool true ∧
    (recordOfResponse "q1" ⟨"No JSON here", some 10, some 5, 123⟩).choice = Json.str "" ∧
    (recordOfResponse "q1" ⟨"No JSON here", some 10, some 5, 123⟩).reason = Json.str "" ∧
    (recordOfResponse "q1" ⟨"No JSON here", some 10, some 5, 123⟩).reason ≠
      Json.str "unparseable" := by
  refine ⟨rfl, rfl, rfl, fun h => ?_⟩
  injection h with h2
  exact absurd h2 (by decide)

/-- Claim C7 as amended: whenever the reply cannot be parsed, the engine
records `choice = ""`, `refused = true` and `reason = ""` (the empty string,
not the literal `"unparseable"`); latency and token counts still come from
the successful network response. -/
theorem parse_failure_refusal_record (qid : String) (resp : ChatResp)
    (h : parse_choice_json resp.text = none) :
    recordOfResponse qid resp =
      { question_id := qid
        choice := .str ""
        reason := .str ""
        additional_thoughts := .str ""
        refused := .bool true
        latency_ms := resp.latency_ms
        tokens_in := resp.tokens_in
        tokens_out := resp.tokens_out } := by
  unfold recordOfResponse dataOfParsed
  rw [h]
  rfl

/-- Claim C7 witness: a prose reply with no JSON is recorded as a refusal
with empty reason. -/
theorem parse_failure_refusal_record_witness :
    recordOfResponse "q2" ⟨"I refuse to answer.", none, none, 50⟩ =
      { question_id := "q2"
        choice := .str ""
        reason := .str ""
        additional_thoughts := .str ""
        refused := .bool true
        latency_ms := 50
        tokens_in := none
        tokens_out := none } :=
  parse_failure_refusal_record "q2" ⟨"I refuse to answer.", none, none, 50⟩ rfl

/-- Claim C10 counterexample: the reply `"\x7b\x7d"` parses successfully to the
empty JSON object and lacks a `"choice"` key, yet the engine records
`refused = true`, not `false`: `if not data` treats the falsy empty dict as
a parse failure. -/
theorem parsed_empty_object_counterexample :
    parse_choice_json "\x7b\x7d" = some (Json.obj []) ∧
    (recordOfResponse "q1" ⟨"\x7b\x7d", none, none, 7⟩).refused = Json.bool true ∧
    (recordOfResponse "q1" ⟨"\x7b\x7d", none, none, 7⟩).refused ≠ Json.bool false := by
  refine ⟨rfl, rfl, fun h => ?_⟩
  injection h with h2
  exact absurd h2 (by decide)

/-- Claim C10 as amended: when `parse_choice_json` succeeds with a
*non-empty* JSON object, the engine records `refused` as the own
`"refused"` field (`false` when absent) and `choice` as its `"choice"` field
(`""` when absent) — in particular a valid non-empty object lacking
`"choice"` is recorded with `refused = false`.  A falsy parse result (the
empty object among them) is instead treated like a parse failure
(`refused = true`), and a truthy non-object parse result becomes an error
record, so `refused = true` can also arise from those replies. -/
theorem parsed_object_record_fields (qid : String) (resp : ChatResp)
    (members : List (String × Json))
    (h : parse_choice_json resp.text = some (.obj members)) (hne : members ≠ []) :
    recordOfResponse qid resp =
      { question_id := qid
        choice := dictGet members "choice" (.str "")
        reason := dictGet members "reason" (.str "")
        additional_thoughts := dictGet members "additional_thoughts" (.str "")
        refused := dictGet members "refused" (.bool false)
        latency_ms := resp.latency_ms
        tokens_in := resp.tokens_in
        tokens_out := resp.tokens_out } := by
  unfold recordOfResponse dataOfParsed
  rw [h]
  have ht : pyTruthy (Json.obj members) = true := by
    simp [pyTruthy, hne]
  simp only [ht, if_true]
  rfl

/-- Claim C10 witness: a valid JSON object reply carrying only a reason is
recorded with `refused = false` and empty choice. -/
theorem parsed_object_record_fields_witness :
    recordOfResponse "q3" ⟨"\x7b\"reason\":\"none of these fit\"\x7d", some 9, some 4, 88⟩ =
      { question_id := "q3"
        choice := .str ""
        reason := .str "none of these fit"
        additional_thoughts := .str ""
        refused := .bool false
        latency_ms := 88
        tokens_in := some 9
        tokens_out := some 4 } := by
  have h := parsed_object_record_fields "q3"
    ⟨"\x7b\"reason\":\"none of these fit\"\x7d", some 9, some 4, 88⟩
    [("reason", Json.str "none of these fit")] rfl (by simp)
  rw [h]
  rfl

theorem countP_eq_count (l : List String) (v : String) :
    l.countP (fun x => x = v) = l.count v := by
  rw [List.count_eq_countP]
  apply List.countP_congr
  intro x _
  simp only [decide_eq_true_eq, beq_iff_eq]

theorem adapterRows_countP (rid qid : String) (qs : List Question) (a : AdapterModel)
    (m qv : String) :
    (adapterRows rid qid qs a).countP (fun r => r.model_id = m ∧ r.question_id = qv) =
      if a.id = m then (qs.map (·.id)).count qv else 0 := by
  unfold adapterRows
  rw [List.countP_map]
  by_cases hm : a.id = m
  · rw [if_pos hm]
    have hq : (modelRecords a.send 1 qs).countP
        ((fun r => decide (r.model_id = m ∧ r.question_id = qv)) ∘ toRow rid qid a.id) =
        (modelRecords a.send 1 qs).countP (fun rec => rec.question_id = qv) := by
      apply List.countP_congr
      intro rec _
      simp [toRow, hm]
    rw [hq, ← countP_eq_count]
    rw [← modelRecords_question_ids a.send 1 qs, List.countP_map]
    rfl
  · rw [if_neg hm, List.countP_eq_zero.mpr]
    intro rec _
    simp [toRow, hm]

theorem runRows_length (rid qid : String) (qs : List Question) :
    ∀ adapters : List AdapterModel,
      (runRows rid qid qs adapters).length = adapters.length * qs.length
  | [] => by simp [runRows]
  | a :: rest => by
      simp [runRows, adapterRows_length, runRows_length rid qid qs rest, Nat.succ_mul,
        Nat.add_comm]

theorem runRows_countP (rid qid : String) (qs : List Question) (m qv : String) :
    ∀ adapters : List AdapterModel,
      (runRows rid qid qs adapters).countP
          (fun r => r.model_id = m ∧ r.question_id = qv) =
        ((adapters.map (·.id)).count m) * ((qs.map (·.id)).count qv)
  | [] => by simp [runRows]
  | a :: rest => by
      rw [runRows, List.countP_append, adapterRows_countP,
        runRows_countP rid qid qs m qv rest]
      by_cases hm : a.id = m
      · simp [hm, List.count_cons]
        ring
      · simp [hm, List.count_cons]

theorem runRows_mem (rid qid : String) (qs : List Question) :
    ∀ (adapters : List AdapterModel), ∀ r ∈ runRows rid qid qs adapters,
      r.run_id = rid ∧ r.quiz_id = qid ∧ r.model_id ∈ adapters.map (·.id)
  | a :: rest, r, hr => by
      rw [runRows, List.mem_append] at hr
      rcases hr with hr | hr
      · obtain ⟨h1, h2, h3⟩ := adapterRows_model_id rid qid qs a r hr
        exact ⟨h2, h3, by simp [h1]⟩
      · obtain ⟨h1, h2, h3⟩ := runRows_mem rid qid qs rest r hr
        exact ⟨h1, h2, by simp [h3]⟩

/-- Claim C1: a run over `N` questions and `M` adapters persists exactly
`N × M` result rows for its `run_id` — one per (model_id, question_id) pair,
none missing, none duplicated — regardless of which sends fail (a failing
send still yields a refused record through the per-question handler). -/
theorem run_quiz_coverage (rid qid : String) (qs : List Question)
    (adapters : List AdapterModel)
    (hq : (qs.map (·.id)).Nodup) (ha : (adapters.map (·.id)).Nodup) :
    (run_quiz [] rid qid qs adapters).length = adapters.length * qs.length ∧
    (∀ a ∈ adapters, ∀ q ∈ qs,
      (run_quiz [] rid qid qs adapters).countP
        (fun r => r.model_id = a.id ∧ r.question_id = q.id) = 1) ∧
    (∀ r ∈ run_quiz [] rid qid qs adapters,
      r.run_id = rid ∧ r.quiz_id = qid ∧ r.model_id ∈ adapters.map (·.id)) := by
  have hrows : run_quiz [] rid qid qs adapters = runRows rid qid qs adapters := by
    rw [run_quiz_eq_append]; simp
  rw [hrows]
  refine ⟨runRows_length rid qid qs adapters, ?_, runRows_mem rid qid qs adapters⟩
  intro a hma q hmq
  rw [runRows_countP]
  have h1 : (adapters.map (·.id)).count a.id = 1 :=
    List.count_eq_one_of_mem ha (List.mem_map_of_mem _ hma)
  have h2 : (qs.map (·.id)).count q.id = 1 :=
    List.count_eq_one_of_mem hq (List.mem_map_of_mem _ hmq)
  rw [h1, h2]

theorem modelRecords_congr (send send' : Nat → Except PyExn ChatResp) :
    ∀ (qs : List Question) (idx : Nat), (∀ j, idx ≤ j → send' j = send j) →
      modelRecords send' idx qs = modelRecords send idx qs
  | [], _, _ => rfl
  | q :: rest, idx, h => by
      unfold modelRecords processQuestion
      rw [h idx (Nat.le_refl idx),
        modelRecords_congr send send' rest (idx + 1) (fun j hj => h j (by omega))]

theorem modelRecords_set_of_error (send send' : Nat → Except PyExn ChatResp) (e : PyExn) :
    ∀ (qs : List Question) (idx k : Nat) (hk : k < qs.length),
      (∀ j, j ≠ idx + k → send' j = send j) → send' (idx + k) = .error e →
      modelRecords send' idx qs =
        (modelRecords send idx qs).set k (errorRecord (qs.get ⟨k, hk⟩).id e)
  | [], _, k, hk, _, _ => absurd hk (by simp)
  | q :: rest, idx, 0, hk, hagree, hfail => by
      have h0 : send' idx = .error e := by
        have := hfail
        rwa [Nat.add_zero] at this
      unfold modelRecords
      rw [modelRecords_congr send send' rest (idx + 1)
        (fun j hj => hagree j (by omega))]
      unfold processQuestion
      rw [h0]
      rfl
  | q :: rest, idx, k + 1, hk, hagree, hfail => by
      unfold modelRecords
      have hhead : send' idx = send idx := hagree idx (by omega)
      have hrest := modelRecords_set_of_error send send' e rest (idx + 1) k
        (by simpa using Nat.lt_of_succ_lt_succ hk)
        (fun j hj => hagree j (by omega))
        (by rw [show idx + 1 + k = idx + (k + 1) by omega]; exact hfail)
      unfold processQuestion
      rw [hhead, hrest]
      rfl

theorem runRows_append (rid qid : String) (qs : List Question) :
    ∀ l1 l2 : List AdapterModel,
      runRows rid qid qs (l1 ++ l2) = runRows rid qid qs l1 ++ runRows rid qid qs l2
  | [], l2 => by simp [runRows]
  | a :: rest, l2 => by
      simp [runRows, runRows_append rid qid qs rest l2]

/-- Claim C2: if the `send` of one adapter fails (raises on every retry) for one
particular question, the run still records one result per question for that
adapter: the record of the failing question is the refused error record (empty
choice, reason derived from the root-cause error), the remaining records of
that adapter are exactly those of the non-failing send, and the batch of
every other adapter is untouched. -/
theorem run_failure_isolation (rid qid : String) (qs : List Question)
    (l1 l2 : List AdapterModel) (a a' : AdapterModel) (k : Nat) (e : PyExn)
    (hk : k < qs.length) (hid : a'.id = a.id)
    (hagree : ∀ j, j ≠ k + 1 → a'.send j = a.send j)
    (hfail : a'.send (k + 1) = .error e) :
    modelRecords a'.send 1 qs =
      (modelRecords a.send 1 qs).set k (errorRecord (qs.get ⟨k, hk⟩).id e) ∧
    (errorRecord (qs.get ⟨k, hk⟩).id e).refused = .bool true ∧
    (errorRecord (qs.get ⟨k, hk⟩).id e).choice = .str "" ∧
    (errorRecord (qs.get ⟨k, hk⟩).id e).reason =
      .str ("Error: " ++ (extract_actual_error e).take 150) ∧
    run_quiz [] rid qid qs (l1 ++ a' :: l2) =
      runRows rid qid qs l1 ++
        (modelRecords a'.send 1 qs).map (toRow rid qid a.id) ++ runRows rid qid qs l2 ∧
    run_quiz [] rid qid qs (l1 ++ a :: l2) =
      runRows rid qid qs l1 ++
        (modelRecords a.send 1 qs).map (toRow rid qid a.id) ++ runRows rid qid qs l2 := by
  refine ⟨?_, rfl, rfl, rfl, ?_, ?_⟩
  · exact modelRecords_set_of_error a.send a'.send e qs 1 k hk
      (fun j hj => hagree j (by omega))
      (by rw [show 1 + k = k + 1 by omega]; exact hfail)
  · rw [run_quiz_eq_append, runRows_append]
    simp [runRows, adapterRows, hid, List.append_assoc]
  · rw [run_quiz_eq_append, runRows_append]
    simp [runRows, adapterRows, List.append_assoc]

theorem runTrace_append (rid qid : String) (qs : List Question) :
    ∀ l1 l2 : List AdapterModel,
      runTrace rid qid qs (l1 ++ l2) = runTrace rid qid qs l1 ++ runTrace rid qid qs l2
  | [], l2 => rfl
  | a :: rest, l2 => by
      show adapterEvents rid qid qs a ++ runTrace rid qid qs (rest ++ l2) =
        (adapterEvents rid qid qs a ++ runTrace rid qid qs rest) ++ runTrace rid qid qs l2
      rw [runTrace_append rid qid qs rest l2, List.append_assoc]

theorem runTrace_mem_modelId (rid qid : String) (qs : List Question) :
    ∀ (adapters : List AdapterModel), ∀ ev ∈ runTrace rid qid qs adapters,
      ev.modelId ∈ adapters.map (·.id)
  | a :: rest, ev, hev => by
      have hsplit : runTrace rid qid qs (a :: rest) =
          adapterEvents rid qid qs a ++ runTrace rid qid qs rest := rfl
      rw [hsplit, List.mem_append] at hev
      rw [List.map_cons, List.mem_cons]
      rcases hev with hev | hev
      · left
        unfold adapterEvents at hev
        rw [List.mem_append] at hev
        rcases hev with hev | hev
        · obtain ⟨q, _, rfl⟩ := List.mem_map.mp hev
          rfl
        · simp at hev
          rw [hev]
          rfl
      · right
        exact runTrace_mem_modelId rid qid qs rest ev hev

/-- Claim C3: no result row for a (run, model) is persisted while that
question loop of a model is in progress; when that loop completes, the full
batch of the model is written by one `insert_results` call.  In the event
trace of the run, the block of each adapter is all of its question attempts followed by
exactly one batch insert carrying one row per question, and no event of that
model occurs anywhere else. -/
theorem run_per_model_batch_persistence (rid qid : String) (qs : List Question)
    (adapters : List AdapterModel) (ha : (adapters.map (·.id)).Nodup)
    (a : AdapterModel) (hmem : a ∈ adapters) :
    ∃ pre post,
      runTrace rid qid qs adapters =
        pre ++ (qs.map (fun q => RunEvent.attempt a.id q.id) ++
          [RunEvent.insertBatch a.id (adapterRows rid qid qs a)]) ++ post ∧
      (∀ ev ∈ pre, ev.modelId ≠ a.id) ∧
      (∀ ev ∈ post, ev.modelId ≠ a.id) ∧
      (adapterRows rid qid qs a).length = qs.length ∧
      ((runTrace rid qid qs adapters).filter
        (fun ev => ev.isInsert && ev.modelId = a.id)).length = 1 := by
  obtain ⟨s, t, rfl⟩ := List.append_of_mem hmem
  have hid : a.id ∉ s.map (·.id) ∧ a.id ∉ t.map (·.id) := by
    rw [List.map_append, List.map_cons, List.nodup_append] at ha
    obtain ⟨_, hcons, hdisj⟩ := ha
    refine ⟨fun hmem' => ?_, by rw [List.nodup_cons] at hcons; exact hcons.1⟩
    exact hdisj hmem' (by simp)
  have htrace : runTrace rid qid qs (s ++ a :: t) =
      runTrace rid qid qs s ++
        (qs.map (fun q => RunEvent.attempt a.id q.id) ++
          [RunEvent.insertBatch a.id (adapterRows rid qid qs a)]) ++
        runTrace rid qid qs t := by
    rw [runTrace_append]
    have : runTrace rid qid qs (a :: t) =
        adapterEvents rid qid qs a ++ runTrace rid qid qs t := rfl
    rw [this]
    unfold adapterEvents
    simp [List.append_assoc]
  have hpre : ∀ ev ∈ runTrace rid qid qs s, ev.modelId ≠ a.id := by
    intro ev hev heq
    exact hid.1 (heq ▸ runTrace_mem_modelId rid qid qs s ev hev)
  have hpost : ∀ ev ∈ runTrace rid qid qs t, ev.modelId ≠ a.id := by
    intro ev hev heq
    exact hid.2 (heq ▸ runTrace_mem_modelId rid qid qs t ev hev)
  refine ⟨runTrace rid qid qs s, runTrace rid qid qs t, htrace, hpre, hpost,
    adapterRows_length rid qid qs a, ?_⟩
  rw [htrace]
  rw [List.filter_append, List.filter_append]
  have hf1 : (runTrace rid qid qs s).filter
      (fun ev => ev.isInsert && ev.modelId = a.id) = [] := by
    rw [List.filter_eq_nil_iff]
    intro ev hev
    simp [hpre ev hev]
  have hf3 : (runTrace rid qid qs t).filter
      (fun ev => ev.isInsert && ev.modelId = a.id) = [] := by
    rw [List.filter_eq_nil_iff]
    intro ev hev
    simp [hpost ev hev]
  have hf2 : ((qs.map (fun q => RunEvent.attempt a.id q.id) ++
      [RunEvent.insertBatch a.id (adapterRows rid qid qs a)]).filter
        (fun ev => ev.isInsert && ev.modelId = a.id)).length = 1 := by
    rw [List.filter_append]
    have hattempts : (qs.map (fun q => RunEvent.attempt a.id q.id)).filter
        (fun ev => ev.isInsert && ev.modelId = a.id) = [] := by
      rw [List.filter_eq_nil_iff]
      intro ev hev
      obtain ⟨q, _, rfl⟩ := List.mem_map.mp hev
      simp [RunEvent.isInsert]
    rw [hattempts]
    simp [RunEvent.isInsert, RunEvent.modelId]
  rw [hf1, hf3]
  simpa using hf2

/-! ### Concrete run scenarios (witness data) -/

/-- The canned reply of the mock adapter, as a `ChatResp`. -/
def mockResp : ChatResp :=
  ⟨"\x7b\"choice\":\"C\",\"reason\":\"Mock response.\"\x7d", some 0, some 0, 0⟩

/-- A send behaviour that answers every question with the mock reply. -/
def mockSend : Nat → Except PyExn ChatResp := fun _ => .ok mockResp

/-- A send behaviour that exhausts its retries on every question. -/
def alwaysFailSend : Nat → Except PyExn ChatResp :=
  fun _ => .error (.retryError "Connection refused by host")

/-- A send behaviour that exhausts its retries on question 2 only. -/
def failOn2Send : Nat → Except PyExn ChatResp :=
  fun j => if j = 2 then .error (.retryError "Connection refused by host") else .ok mockResp

/-- A two-question quiz. -/
def sampleQuestions : List Question :=
  [⟨"Q1", "Pick one:", ["Coffee", "Tea", "Water"]⟩,
   ⟨"Q2", "Pick again:", ["Yes", "No"]⟩]

/-- Two adapters: one that answers everything, one whose every send fails. -/
def sampleAdapters : List AdapterModel :=
  [⟨"mock:good", mockSend⟩, ⟨"mock:bad", alwaysFailSend⟩]

/-- Claim C1 witness: the concrete 2-question × 2-adapter run (one adapter
failing on every question) persists exactly 4 rows, one per pair. -/
theorem run_quiz_coverage_witness :
    (run_quiz [] "run-1" "quiz-1" sampleQuestions sampleAdapters).length =
        sampleAdapters.length * sampleQuestions.length ∧
    (∀ a ∈ sampleAdapters, ∀ q ∈ sampleQuestions,
      (run_quiz [] "run-1" "quiz-1" sampleQuestions sampleAdapters).countP
        (fun r => r.model_id = a.id ∧ r.question_id = q.id) = 1) ∧
    (∀ r ∈ run_quiz [] "run-1" "quiz-1" sampleQuestions sampleAdapters,
      r.run_id = "run-1" ∧ r.quiz_id = "quiz-1" ∧
        r.model_id ∈ sampleAdapters.map (·.id)) :=
  run_quiz_coverage "run-1" "quiz-1" sampleQuestions sampleAdapters
    (by decide) (by decide)

/-- Claim C2 witness: with the failing-on-question-2 variant of an adapter,
only the record of that question becomes the refused error record; the
batch of the other adapter and the record of the other question are unchanged. -/
theorem run_failure_isolation_witness :
    modelRecords failOn2Send 1 sampleQuestions =
      (modelRecords mockSend 1 sampleQuestions).set 1
        (errorRecord (sampleQuestions.get ⟨1, by decide⟩).id
          (.retryError "Connection refused by host")) ∧
    (errorRecord (sampleQuestions.get ⟨1, by decide⟩).id
        (.retryError "Connection refused by host")).refused = .bool true ∧
    (errorRecord (sampleQuestions.get ⟨1, by decide⟩).id
        (.retryError "Connection refused by host")).choice = .str "" ∧
    (errorRecord (sampleQuestions.get ⟨1, by decide⟩).id
        (.retryError "Connection refused by host")).reason =
      .str ("Error: " ++
        (extract_actual_error (.retryError "Connection refused by host")).take 150) ∧
    run_quiz [] "run-2" "quiz-1" sampleQuestions
        ([⟨"mock:good", mockSend⟩] ++ ⟨"mock:flaky", failOn2Send⟩ :: []) =
      runRows "run-2" "quiz-1" sampleQuestions [⟨"mock:good", mockSend⟩] ++
        (modelRecords failOn2Send 1 sampleQuestions).map
          (toRow "run-2" "quiz-1" "mock:flaky") ++
        runRows "run-2" "quiz-1" sampleQuestions [] ∧
    run_quiz [] "run-2" "quiz-1" sampleQuestions
        ([⟨"mock:good", mockSend⟩] ++ ⟨"mock:flaky", mockSend⟩ :: []) =
      runRows "run-2" "quiz-1" sampleQuestions [⟨"mock:good", mockSend⟩] ++
        (modelRecords mockSend 1 sampleQuestions).map
          (toRow "run-2" "quiz-1" "mock:flaky") ++
        runRows "run-2" "quiz-1" sampleQuestions [] :=
  run_failure_isolation "run-2" "quiz-1" sampleQuestions
    [⟨"mock:good", mockSend⟩] [] ⟨"mock:flaky", mockSend⟩ ⟨"mock:flaky", failOn2Send⟩
    1 (.retryError "Connection refused by host") (by decide) rfl
    (fun j hj => by simp [failOn2Send, mockSend, hj])
    (by simp [failOn2Send])

/-- Claim C3 witness: in the trace of the concrete run, the events of the
failing adapter are its two question attempts followed by its single batch
insert, with no event of that adapter elsewhere. -/
theorem run_per_model_batch_persistence_witness :
    ∃ pre post,
      runTrace "run-1" "quiz-1" sampleQuestions sampleAdapters =
        pre ++ (sampleQuestions.map
            (fun q => RunEvent.attempt "mock:bad" q.id) ++
          [RunEvent.insertBatch "mock:bad"
            (adapterRows "run-1" "quiz-1" sampleQuestions ⟨"mock:bad", alwaysFailSend⟩)]) ++
          post ∧
      (∀ ev ∈ pre, ev.modelId ≠ "mock:bad") ∧
      (∀ ev ∈ post, ev.modelId ≠ "mock:bad") ∧
      (adapterRows "run-1" "quiz-1" sampleQuestions
        ⟨"mock:bad", alwaysFailSend⟩).length = sampleQuestions.length ∧
      ((runTrace "run-1" "quiz-1" sampleQuestions sampleAdapters).filter
        (fun ev => ev.isInsert && ev.modelId = "mock:bad")).length = 1 :=
  run_per_model_batch_persistence "run-1" "quiz-1" sampleQuestions sampleAdapters
    (by decide) ⟨"mock:bad", alwaysFailSend⟩ (by simp [sampleAdapters])

/-- Claim C8 counterexample: constructing an OpenAI adapter in an
environment where its API-key variable is unset does *not* fail fast — it
succeeds, with the key silently defaulting to the empty string
(`os.environ.get(api_key_env, "")`); the only construction-time error is an
unknown provider tag. -/
theorem adapter_construction_no_fail_fast_counterexample :
    create_adapter [] ⟨"gpt-4o", "openai", "gpt-4o", "OPENAI_API_KEY"⟩ false =
      .ok (.openai "gpt-4o" ⟨"gpt-4o", ""⟩) ∧
    openai_adapter_init [] "gpt-4o" "OPENAI_API_KEY" = ⟨"gpt-4o", ""⟩ :=
  ⟨rfl, rfl⟩

/-- Claim C8 as amended: adapter construction never fails on a missing
credential (the key defaults to `""`); instead `ModelConfig.is_available`
is false exactly when the key variable is unset or empty, and
`ModelConfigLoader.create_adapters` only constructs adapters for available
configs, so an unavailable model is excluded from the active set before a
run starts rather than failing at construction. -/
theorem adapter_availability_filtering (env : Env) (cfg : ModelConfig)
    (configs : List ModelConfig) (model_ids : List String) :
    (∀ model keyEnv, openai_adapter_init env model keyEnv =
      ⟨model, os_environ_get env keyEnv ""⟩) ∧
    (is_available env cfg false = true ↔
      ∃ v, envLookup env cfg.api_key_env = some v ∧ v ≠ "") ∧
    (∀ adapters, create_adapters env configs model_ids false = .ok adapters →
      ∀ ad ∈ adapters, ∃ mid ∈ model_ids, ∃ c,
        get_model configs mid = some c ∧ is_available env c false = true ∧
          create_adapter env c false = .ok ad) := by
  refine ⟨fun _ _ => rfl, ?_, ?_⟩
  · unfold is_available
    cases h : envLookup env cfg.api_key_env with
    | none => simp [h]
    | some v => simp [h]
  · induction model_ids with
    | nil =>
        intro adapters hok ad had
        unfold create_adapters at hok
        cases hok
        simp at had
    | cons mid rest ih =>
        intro adapters hok ad had
        unfold create_adapters at hok
        cases hcfg : get_model configs mid with
        | none =>
            simp only [hcfg] at hok
            obtain ⟨m, hm, hc⟩ := ih adapters hok ad had
            exact ⟨m, List.mem_cons_of_mem _ hm, hc⟩
        | some c =>
            simp only [hcfg] at hok
            by_cases hav : is_available env c false
            · rw [if_pos hav] at hok
              cases hca : create_adapter env c false with
              | error eMsg => simp only [hca] at hok; cases hok
              | ok builtAd =>
                  simp only [hca] at hok
                  cases hrest : create_adapters env configs rest false with
                  | error eMsg => simp only [hrest] at hok; cases hok
                  | ok more =>
                      simp only [hrest] at hok
                      cases hok
                      rcases List.mem_cons.mp had with rfl | hmem
                      · exact ⟨mid, List.mem_cons_self _ _, c, hcfg, hav, hca⟩
                      · obtain ⟨m, hm, hc⟩ := ih more hrest ad hmem
                        exact ⟨m, List.mem_cons_of_mem _ hm, hc⟩
            · rw [if_neg hav] at hok
              obtain ⟨m, hm, hc⟩ := ih adapters hok ad had
              exact ⟨m, List.mem_cons_of_mem _ hm, hc⟩

/-- Claim C8 witness: with one key set and one unset, only the available
available config gets an adapter constructed, and its availability comes from the set,
non-empty variable. -/
theorem adapter_availability_filtering_witness :
    (openai_adapter_init [("ANTHROPIC_API_KEY", "sk-test")] "gpt-4o" "OPENAI_API_KEY" =
      ⟨"gpt-4o", os_environ_get [("ANTHROPIC_API_KEY", "sk-test")] "OPENAI_API_KEY" ""⟩) ∧
    (∀ ad ∈ [ConstructedAdapter.anthropic "claude" ⟨"claude-3", "sk-test"⟩],
      ∃ mid ∈ ["claude", "gpt"], ∃ c,
        get_model [⟨"claude", "anthropic", "claude-3", "ANTHROPIC_API_KEY"⟩,
          ⟨"gpt", "openai", "gpt-4o", "OPENAI_API_KEY"⟩] mid = some c ∧
        is_available [("ANTHROPIC_API_KEY", "sk-test")] c false = true ∧
        create_adapter [("ANTHROPIC_API_KEY", "sk-test")] c false = .ok ad) := by
  have h := adapter_availability_filtering [("ANTHROPIC_API_KEY", "sk-test")]
    ⟨"claude", "anthropic", "claude-3", "ANTHROPIC_API_KEY"⟩
    [⟨"claude", "anthropic", "claude-3", "ANTHROPIC_API_KEY"⟩,
      ⟨"gpt", "openai", "gpt-4o", "OPENAI_API_KEY"⟩]
    ["claude", "gpt"]
  exact ⟨h.1 "gpt-4o" "OPENAI_API_KEY", h.2.2
    [ConstructedAdapter.anthropic "claude" ⟨"claude-3", "sk-test"⟩] rfl⟩

/-! ### Claim C9 -/

/-- Holds when `s` survives inside the converted `contents`: some single part of some
entry contains it as a contiguous substring. -/
def hasPartInfix (s : String) (contents : List GoogleContent) : Prop :=
  ∃ g ∈ contents, ∃ p ∈ g.parts, s.data <:+: p.data

theorem dropLast_append_of_getLast? {α : Type} (l : List α) (a : α)
    (h : l.getLast? = some a) : l.dropLast ++ [a] = l := by
  have hne : l ≠ [] := by cases l <;> simp_all
  rw [List.getLast?_eq_getLast l hne, Option.some.injEq] at h
  rw [← h]
  exact List.dropLast_append_getLast hne

theorem googleFoldStep_preserves (contents : List GoogleContent) (msg : ChatMessage)
    (s : String) (h : hasPartInfix s contents) :
    hasPartInfix s (googleFoldStep contents msg) := by
  obtain ⟨g, hg, p, hp, hinf⟩ := h
  unfold googleFoldStep
  by_cases hu : msg.role = "user"
  · rw [if_pos hu]
    exact ⟨g, List.mem_append_left _ hg, p, hp, hinf⟩
  · rw [if_neg hu]
    by_cases hs : msg.role = "system"
    · rw [if_pos hs]
      cases hlast : contents.getLast? with
      | none => exact ⟨g, List.mem_append_left _ hg, p, hp, hinf⟩
      | some last =>
          dsimp only
          by_cases hrole : last.role = "user"
          · rw [if_pos hrole]
            have hdecomp := dropLast_append_of_getLast? contents last hlast
            rw [← hdecomp, List.mem_append] at hg
            rcases hg with hg | hg
            · exact ⟨g, List.mem_append_left _ hg, p, hp, hinf⟩
            · simp only [List.mem_singleton] at hg
              subst hg
              cases hparts : g.parts with
              | nil => rw [hparts] at hp; cases hp
              | cons p0 ps =>
                  rw [hparts] at hp
                  rcases List.mem_cons.mp hp with rfl | hp
                  · refine ⟨⟨(msg.content ++ "\n\n" ++ p) :: ps, g.role⟩,
                      List.mem_append_right _ (by simp), (msg.content ++ "\n\n" ++ p),
                      by simp, ?_⟩
                    refine hinf.trans ?_
                    rw [String.data_append]
                    exact (List.suffix_append _ _).isInfix
                  · exact ⟨⟨(msg.content ++ "\n\n" ++ p0) :: ps, g.role⟩,
                      List.mem_append_right _ (by simp), p, by simp [hp], hinf⟩
          · rw [if_neg hrole]
            exact ⟨g, List.mem_append_left _ hg, p, hp, hinf⟩
    · rw [if_neg hs]
      exact ⟨g, hg, p, hp, hinf⟩

theorem googleFold_preserves :
    ∀ (msgs : List ChatMessage) (contents : List GoogleContent) (s : String),
      hasPartInfix s contents → hasPartInfix s (msgs.foldl googleFoldStep contents)
  | [], _, _, h => h
  | msg :: rest, contents, s, h => by
      rw [List.foldl_cons]
      exact googleFold_preserves rest (googleFoldStep contents msg) s
        (googleFoldStep_preserves contents msg s h)

theorem googleFoldStep_nonempty_parts (contents : List GoogleContent) (msg : ChatMessage)
    (hinv : ∀ g ∈ contents, g.parts ≠ []) :
    ∀ g ∈ googleFoldStep contents msg, g.parts ≠ [] := by
  intro g hg
  unfold googleFoldStep at hg
  by_cases hu : msg.role = "user"
  · rw [if_pos hu, List.mem_append] at hg
    rcases hg with hg | hg
    · exact hinv g hg
    · simp only [List.mem_singleton] at hg; subst hg; simp
  · rw [if_neg hu] at hg
    by_cases hs : msg.role = "system"
    · rw [if_pos hs] at hg
      cases hlast : contents.getLast? with
      | none =>
          rw [hlast] at hg
          dsimp only at hg
          rw [List.mem_append] at hg
          rcases hg with hg | hg
          · exact hinv g hg
          · simp only [List.mem_singleton] at hg; subst hg; simp
      | some last =>
          rw [hlast] at hg
          dsimp only at hg
          by_cases hrole : last.role = "user"
          · rw [if_pos hrole, List.mem_append] at hg
            rcases hg with hg | hg
            · exact hinv g (by
                rw [← dropLast_append_of_getLast? contents last hlast]
                exact List.mem_append_left _ hg)
            · simp only [List.mem_singleton] at hg
              subst hg
              have hlmem : last ∈ contents := by
                rw [← dropLast_append_of_getLast? contents last hlast]
                exact List.mem_append_right _ (by simp)
              have := hinv last hlmem
              cases hparts : last.parts with
              | nil => exact absurd hparts this
              | cons p0 ps => simp [hparts]
          · rw [if_neg hrole, List.mem_append] at hg
            rcases hg with hg | hg
            · exact hinv g hg
            · simp only [List.mem_singleton] at hg; subst hg; simp
    · rw [if_neg hs] at hg
      exact hinv g hg

theorem googleFoldStep_introduces (contents : List GoogleContent) (msg : ChatMessage)
    (hinv : ∀ g ∈ contents, g.parts ≠ [])
    (hrole : msg.role = "user" ∨ msg.role = "system") :
    hasPartInfix msg.content (googleFoldStep contents msg) := by
  unfold googleFoldStep
  rcases hrole with hu | hs
  · rw [if_pos hu]
    exact ⟨⟨[msg.content], "user"⟩, List.mem_append_right _ (by simp), msg.content,
      by simp, List.infix_refl _⟩
  · by_cases hu : msg.role = "user"
    · rw [if_pos hu]
      exact ⟨⟨[msg.content], "user"⟩, List.mem_append_right _ (by simp), msg.content,
        by simp, List.infix_refl _⟩
    · rw [if_neg hu, if_pos hs]
      cases hlast : contents.getLast? with
      | none =>
          exact ⟨⟨[msg.content], "user"⟩, List.mem_append_right _ (by simp), msg.content,
            by simp, List.infix_refl _⟩
      | some last =>
          dsimp only
          by_cases hrole' : last.role = "user"
          · rw [if_pos hrole']
            have hlmem : last ∈ contents := by
              rw [← dropLast_append_of_getLast? contents last hlast]
              exact List.mem_append_right _ (by simp)
            cases hparts : last.parts with
            | nil => exact absurd hparts (hinv last hlmem)
            | cons p0 ps =>
                refine ⟨⟨(msg.content ++ "\n\n" ++ p0) :: ps, last.role⟩,
                  List.mem_append_right _ (by simp), (msg.content ++ "\n\n" ++ p0),
                  by simp, ?_⟩
                rw [String.data_append, String.data_append]
                exact (List.prefix_append _ _).isInfix.trans
                  ((List.prefix_append _ _).isInfix)
          · rw [if_neg hrole']
            exact ⟨⟨[msg.content], "user"⟩, List.mem_append_right _ (by simp),
              msg.content, by simp, List.infix_refl _⟩

theorem googleFold_content_kept :
    ∀ (msgs : List ChatMessage) (contents : List GoogleContent),
      (∀ g ∈ contents, g.parts ≠ []) →
      ∀ m ∈ msgs, m.role = "user" ∨ m.role = "system" →
        hasPartInfix m.content (msgs.foldl googleFoldStep contents)
  | [], _, _, m, hm, _ => absurd hm (by simp)
  | msg :: rest, contents, hinv, m, hm, hrole => by
      rw [List.foldl_cons]
      rcases List.mem_cons.mp hm with rfl | hm
      · exact googleFold_preserves rest (googleFoldStep contents m) m.content
          (googleFoldStep_introduces contents m hinv hrole)
      · exact googleFold_content_kept rest (googleFoldStep contents msg)
          (googleFoldStep_nonempty_parts contents msg hinv) m hm hrole

/-- Claim C9 counterexample: an `assistant`-role message is dropped by the
conversion of the Google adapter — alone it converts to an empty `contents`
array, and after a user message it leaves only the user entry — so the
conversion does *not* preserve content for every role of the convention. -/
theorem google_assistant_dropped_counterexample :
    googleContents [⟨"assistant", "earlier reply"⟩] = [] ∧
    googleContents [⟨"user", "hi"⟩, ⟨"assistant", "earlier reply"⟩] =
      [⟨["hi"], "user"⟩] :=
  ⟨rfl, rfl⟩

/-- Claim C9 as amended: the conversion never drops `user` or `system`
content — the content of every such message survives verbatim inside a single
part of the output, with `system` content folded by the fold rule (prepended
to the trailing user entry separated by a blank line, else starting a new
user entry) — but a message of any other role, the `assistant` role of the convention
included, matches no branch and is dropped. -/
theorem google_role_folding (msgs : List ChatMessage) :
    (∀ (contents : List GoogleContent) (msg : ChatMessage),
      msg.role ≠ "user" → msg.role ≠ "system" → googleFoldStep contents msg = contents) ∧
    (∀ m ∈ msgs, m.role = "user" ∨ m.role = "system" →
      hasPartInfix m.content (googleContents msgs)) ∧
    (∀ (contents : List GoogleContent) (msg : ChatMessage) (last : GoogleContent)
        (p : String) (ps : List String),
      msg.role = "system" → contents.getLast? = some last → last.role = "user" →
      last.parts = p :: ps →
      googleFoldStep contents msg =
        contents.dropLast ++ [⟨(msg.content ++ "\n\n" ++ p) :: ps, last.role⟩]) ∧
    (∀ (contents : List GoogleContent) (msg : ChatMessage),
      msg.role = "system" → (∀ last ∈ contents.getLast?.toList, last.role ≠ "user") →
      googleFoldStep contents msg = contents ++ [⟨[msg.content], "user"⟩]) := by
  refine ⟨?_, ?_, ?_, ?_⟩
  · intro contents msg hu hs
    unfold googleFoldStep
    rw [if_neg hu, if_neg hs]
  · intro m hm hrole
    exact googleFold_content_kept msgs [] (by simp) m hm hrole
  · intro contents msg last p ps hs hlast hrole hparts
    have hu : msg.role ≠ "user" := by rw [hs]; decide
    unfold googleFoldStep
    rw [if_neg hu, if_pos hs, hlast]
    dsimp only
    rw [if_pos hrole, hparts]
  · intro contents msg hs hnot
    have hu : msg.role ≠ "user" := by rw [hs]; decide
    unfold googleFoldStep
    rw [if_neg hu, if_pos hs]
    cases hlast : contents.getLast? with
    | none => rfl
    | some last =>
        dsimp only
        rw [if_neg (hnot last (by simp [hlast]))]

/-- Claim C9 witness: in a system-then-user transcript both contents survive
the conversion (here the system text is folded in front of the user text). -/
theorem google_role_folding_witness :
    hasPartInfix "You are a quiz taker." (googleContents
      [⟨"user", "Question 1"⟩, ⟨"system", "You are a quiz taker."⟩]) ∧
    hasPartInfix "Question 1" (googleContents
      [⟨"user", "Question 1"⟩, ⟨"system", "You are a quiz taker."⟩]) := by
  have h := google_role_folding
    [⟨"user", "Question 1"⟩, ⟨"system", "You are a quiz taker."⟩]
  exact ⟨h.2.1 ⟨"system", "You are a quiz taker."⟩ (by simp) (Or.inr rfl),
    h.2.1 ⟨"user", "Question 1"⟩ (by simp) (Or.inl rfl)⟩

end PopQuizBench
